import Mathlib

/-
Verification of the l2bridge network driver (package l2bridge) against its
natural-language specification.  The Go sources are shallowly embedded:
IP addresses and hardware addresses become lists of byte values (Nat < 256),
Go maps become functions `String → Option _`, fallible kernel primitives
(netlink calls, sysfs writes) become boolean oracles collected in environment
structures, and each driver operation becomes a state-transition function
returning either a result, a classified error together with the state it
leaves behind, or a marker for a Go runtime panic (nil dereference or
out-of-range index).
-/

namespace L2Bridge

/-- Caller-visible error classification, mirroring the marker interfaces of
the types package (`BadRequest()`, `Forbidden()`, `NotFound()`,
`Maskable()`, internal errors, and plain unclassified `fmt.Errorf` errors). -/
inductive Err where
  | badRequest
  | forbidden
  | notFound
  | internalMaskable
  | internal
  | notImplemented
  | other
deriving DecidableEq, Repr

/-- A byte string (`net.IP`, `net.IPMask`, `net.HardwareAddr` are all byte
slices in Go); each entry is a byte value. -/
abbrev Bytes := List Nat

/-- Go `isZeros`: every byte of the slice is zero. -/
def isZeros (bs : Bytes) : Bool := bs.all (· = 0)

/-- Go `net.IP.To4`: a 4-byte address is returned as is; a 16-byte
IPv4-mapped address (ten zero bytes then 0xff 0xff) is narrowed to its last
four bytes; anything else yields nil (`none`). -/
def to4 (ip : Bytes) : Option Bytes :=
  if ip.length = 4 then some ip
  else if ip.length = 16 ∧ isZeros (ip.take 10) ∧ ip.getD 10 0 = 255 ∧ ip.getD 11 0 = 255 then
    some (ip.drop 12)
  else none

/-- A subnet, mirroring Go `net.IPNet`: an address and a mask, both raw byte
strings. -/
structure IPNet where
  ip : Bytes
  mask : Bytes
deriving DecidableEq, Repr

/-- Inner loop of Go `simpleMaskLength` on one byte: count leading one bits,
shifting left (mod 256) as the Go code does, and return the count together
with the residue left in the byte after the counted bits. -/
def byteLeadingOnes : Nat → Nat → Nat × Nat
  | 0, v => (0, v)
  | fuel + 1, v =>
    if Nat.land v 128 ≠ 0 then
      let r := byteLeadingOnes fuel (v * 2 % 256)
      (r.1 + 1, r.2)
    else (0, v)

/-- Go `simpleMaskLength`: the number of leading one bits of a canonical
(ones-then-zeros) mask, `none` for a non-canonical mask (where Go returns
-1, which `Size` then maps to 0). -/
def simpleMaskLength : Bytes → Option Nat
  | [] => some 0
  | v :: rest =>
    if v = 255 then (simpleMaskLength rest).map (· + 8)
    else
      let r := byteLeadingOnes 8 v
      if r.2 ≠ 0 then none
      else if isZeros rest then some r.1 else none

/-- The `ones` component of Go `net.IPMask.Size()`: leading-ones count of a
canonical mask, and 0 when the mask is non-canonical. -/
def maskOnes (m : Bytes) : Nat := (simpleMaskLength m).getD 0

/-- Go `networkNumberAndMask`: normalize the subnet address via `To4` and
align the mask width with the address width, failing (`none`) on
inconsistent widths. -/
def networkNumberAndMask (n : IPNet) : Option (Bytes × Bytes) :=
  let ipo : Option Bytes :=
    match to4 n.ip with
    | some x => some x
    | none => if n.ip.length = 16 then some n.ip else none
  match ipo with
  | none => none
  | some ip =>
    if n.mask.length = 4 then
      if ip.length ≠ 4 then none else some (ip, n.mask)
    else if n.mask.length = 16 then
      if ip.length = 4 then some (ip, n.mask.drop 12) else some (ip, n.mask)
    else none

/-- Go `net.IPNet.Contains`: normalize both addresses, require equal widths,
and compare the masked bytes. -/
def containsIP (n : IPNet) (ip0 : Bytes) : Bool :=
  match networkNumberAndMask n with
  | none => false
  | some (nn, m) =>
    let ip := match to4 ip0 with
      | some x => x
      | none => ip0
    if ip.length ≠ nn.length then false
    else (List.range ip.length).all fun i =>
      Nat.land (nn.getD i 0) (m.getD i 0) = Nat.land (ip.getD i 0) (m.getD i 0)

/-- Network-specific configuration, mirroring `networkConfiguration` in
bridge.go (the persistence bookkeeping fields `dbIndex`/`dbExists` carry no
behavior and are omitted). -/
structure NetworkConfiguration where
  id : String := ""
  bridgeName : String := ""
  enableIPv6 : Bool := false
  mtu : Int := 0
  containerIfacePrefix : String := ""
  poolIPv4 : Option IPNet := none
  poolIPv6 : Option IPNet := none
  defaultGatewayIPv4 : Option Bytes := none
  defaultGatewayIPv6 : Option Bytes := none
deriving DecidableEq, Repr

/-- First guarded check of `Validate`: the bridge v4 subnet is specified,
a default gateway is specified, and the gateway is not part of the bridge
subnet (`ErrInvalidGateway`). -/
def v4GatewayViolation (c : NetworkConfiguration) : Bool :=
  match c.poolIPv4, c.defaultGatewayIPv4 with
  | some p, some gw => ¬ containsIP p gw
  | _, _ => false

/-- Second guarded check of `Validate`: IPv6 is enabled, a default v6
gateway is specified, and either `PoolIPv6` is nil or the gateway does not
belong to the `PoolIPv6` subnet. -/
def v6GatewayViolation (c : NetworkConfiguration) : Bool :=
  if c.enableIPv6 && c.defaultGatewayIPv6.isSome then
    match c.poolIPv6, c.defaultGatewayIPv6 with
    | some p6, some gw6 => ¬ containsIP p6 gw6
    | _, _ => true
  else false

/-- `networkConfiguration.Validate` from bridge.go: reject a negative MTU
(BadRequest `ErrInvalidMtu`), then reject a configured IPv4 gateway lying
outside a configured IPv4 pool, then reject a configured IPv6 gateway
without a containing IPv6 pool when IPv6 is enabled (both BadRequest
`ErrInvalidGateway`). -/
def validateConfig (c : NetworkConfiguration) : Except Err Unit :=
  if c.mtu < 0 then .error .badRequest
  else if v4GatewayViolation c then .error .badRequest
  else if v6GatewayViolation c then .error .badRequest
  else .ok ()

/-- The gateway condition exactly as the claim words it: each configured
default gateway is contained in the corresponding pool or is unset — the
IPv4 gateway (when set) lies inside the IPv4 pool, and, when IPv6 is
enabled and an IPv6 gateway is set, the IPv6 pool is present and contains
it.  Stated from the specification for comparison with `validateConfig`. -/
def specGatewayCondition (c : NetworkConfiguration) : Bool :=
  (match c.defaultGatewayIPv4 with
   | some gw =>
     match c.poolIPv4 with
     | some p => containsIP p gw
     | none => false
   | none => true) &&
  (if c.enableIPv6 then
     match c.defaultGatewayIPv6 with
     | some gw6 =>
       match c.poolIPv6 with
       | some p6 => containsIP p6 gw6
       | none => false
     | none => true
   else true)

/-- The gateway condition that `validateConfig` actually decides: the IPv4
containment check is skipped whenever the IPv4 pool is absent, so an IPv4
gateway configured without a pool is accepted. -/
def amendedGatewayCondition (c : NetworkConfiguration) : Bool :=
  (match c.poolIPv4, c.defaultGatewayIPv4 with
   | some p, some gw => containsIP p gw
   | _, _ => true) &&
  (if c.enableIPv6 then
     match c.defaultGatewayIPv6 with
     | some gw6 =>
       match c.poolIPv6 with
       | some p6 => containsIP p6 gw6
       | none => false
     | none => true
   else true)

/-- User-specified endpoint configuration (`endpointConfiguration`): only a
MAC address is recognized. -/
structure EndpointConfiguration where
  macAddress : Option Bytes := none
deriving DecidableEq, Repr

/-- The addressing request/response record (`EndpointInterface` in
convert.go): MAC, IPv4 address, IPv6 address, each optional. -/
structure EndpointInterface where
  macAddress : Option Bytes := none
  address : Option IPNet := none
  addressIPv6 : Option IPNet := none
deriving DecidableEq, Repr

/-- An endpoint record (`bridgeEndpoint` in bridge.go); the persistence
bookkeeping fields are omitted. -/
structure BridgeEndpoint where
  id : String := ""
  nid : String := ""
  srcName : String := ""
  addr : Option IPNet := none
  addrv6 : Option IPNet := none
  macAddress : Option Bytes := none
  config : Option EndpointConfiguration := none
deriving DecidableEq, Repr

/-- Go map insertion (`m[k] = v`) on a map embedded as a function. -/
def mapInsert {α : Type} (m : String → Option α) (k : String) (v : α) : String → Option α :=
  fun q => if q = k then some v else m q

/-- Go map deletion (`delete(m, k)`) on a map embedded as a function. -/
def mapErase {α : Type} (m : String → Option α) (k : String) : String → Option α :=
  fun q => if q = k then none else m q

/-- The veth pairs present on the host, each as (host-side name,
sandbox-side name). -/
abbrev Links := List (String × String)

/-- `nlh.LinkDel` on a veth end: deleting either end of a veth pair removes
the whole pair (kernel semantics), and deleting an absent link is a no-op
(the call would merely return an error, which every caller here either
handles or logs). -/
def linkDel (name : String) (links : Links) : Links :=
  links.filter fun p => p.1 ≠ name && p.2 ≠ name

/-- A link name is fresh for the host state: no existing veth pair uses it.
`netutils.GenerateIfaceName` only returns names no existing link carries. -/
def FreshName (name : String) (links : Links) : Prop :=
  ∀ p ∈ links, p.1 ≠ name ∧ p.2 ≠ name

/-- Modelled from the spec: the external `netutils.GenerateMACFromIP`
helper (its source is not part of this repository), which derives a MAC
address deterministically from an IPv4 address — a fixed two-byte prefix
followed by the four IPv4 bytes. -/
def generateMACFromIP (ip : Bytes) : Bytes :=
  [2, 66] ++ (to4 ip).getD [0, 0, 0, 0]

/-- `electMacAddress` from bridge.go: a MAC supplied in the endpoint
configuration wins; otherwise the MAC is generated from the IP. -/
def electMacAddress (epConfig : Option EndpointConfiguration) (ip : Bytes) : Bytes :=
  match epConfig with
  | some c =>
    match c.macAddress with
    | some m => m
    | none => generateMACFromIP ip
  | none => generateMACFromIP ip

/-- The MAC carried by an optional endpoint configuration (Go
`epConfig != nil && epConfig.MacAddress != nil`). -/
def epConfigMac : Option EndpointConfiguration → Option Bytes
  | some c => c.macAddress
  | none => none

/-- The Go loop `for i, h := range src { l[i+start] = h }` writing the bytes
of `src` into `l` beginning at index `start`. -/
def setBytesFrom (l : Bytes) (start : Nat) : Bytes → Bytes
  | [] => l
  | h :: t => setBytesFrom (l.set start h) (start + 1) t

/-- Mutable state touched by `CreateEndpoint`: one network's endpoint map
and the host's veth links. -/
structure CEState where
  endpoints : String → Option BridgeEndpoint
  links : Links

/-- Outcomes of the fallible kernel primitives `CreateEndpoint` invokes, in
program order; `true` means the call succeeds.  `hostName`/`sboxName` are
the two generated interface names. -/
structure CEEnv where
  genHostOk : Bool := true
  genSboxOk : Bool := true
  hostName : String := "veth_h"
  sboxName : String := "veth_s"
  linkAddOk : Bool := true
  findHostOk : Bool := true
  findSboxOk : Bool := true
  mtuHostOk : Bool := true
  mtuSboxOk : Bool := true
  attachOk : Bool := true
  hairpinOk : Bool := true
  upOk : Bool := true
deriving DecidableEq, Repr

/-- All kernel primitives succeed. -/
def CEEnv.allOk (env : CEEnv) : Prop :=
  env.genHostOk = true ∧ env.genSboxOk = true ∧ env.linkAddOk = true ∧
  env.findHostOk = true ∧ env.findSboxOk = true ∧ env.mtuHostOk = true ∧
  env.mtuSboxOk = true ∧ env.attachOk = true ∧ env.hairpinOk = true ∧ env.upOk = true

/-- Result of a `CreateEndpoint` call: a Go runtime panic, an error return
carrying the state left behind, or success carrying the state, the stored
endpoint record, and the returned `EndpointInterface`. -/
inductive CEResult where
  | panics
  | fails (e : Err) (s : CEState)
  | ok (s : CEState) (ep : BridgeEndpoint) (eiOut : EndpointInterface)

/-- The error class of a failed result. -/
def CEResult.errClass : CEResult → Option Err
  | .fails e _ => some e
  | _ => none

/-- The state left behind by a non-panicking result. -/
def CEResult.stateOf : CEResult → Option CEState
  | .fails _ s => some s
  | .ok s _ _ => some s
  | .panics => none

/-- Final phase of `bridgeDriver.CreateEndpoint`, entered with the elected
MAC (`mac`) and the MAC to report back (`outMac`): link-up, then IPv6
derivation when the network enables IPv6 and the request carries no IPv6
address (Forbidden for masks with more than 80 leading one bits, a Go
panic when writing the MAC bytes past the end of the pool address), then
success.  The deferred cleanups in scope on an error return are the
endpoint-record deletion and the best-effort deletion of both resolved
links, written `undoAll`. -/
def ceFinalize (cfg : NetworkConfiguration) (s2 : CEState)
    (nid eid hostName sboxName : String) (ei : EndpointInterface)
    (epConfig : Option EndpointConfiguration) (env : CEEnv)
    (mac : Bytes) (outMac : Option Bytes) : CEResult :=
  let undoAll : CEState → CEState := fun st =>
    { endpoints := mapErase st.endpoints eid,
      links := linkDel hostName (linkDel sboxName st.links) }
  if ¬ env.upOk then .fails .other (undoAll s2)
  else
    if ei.addressIPv6 = none ∧ cfg.enableIPv6 then
      match cfg.poolIPv6 with
      | none => .panics
      | some pool =>
        if maskOnes pool.mask > 80 then .fails .forbidden (undoAll s2)
        else if mac.length ≠ 0 ∧ pool.ip.length < 10 + mac.length then .panics
        else
          let addrv6 : Option IPNet := some ⟨setBytesFrom pool.ip 10 mac, pool.mask⟩
          let ep : BridgeEndpoint :=
            { id := eid, nid := nid, srcName := sboxName, addr := ei.address,
              addrv6 := addrv6, macAddress := some mac, config := epConfig }
          .ok { s2 with endpoints := mapInsert s2.endpoints eid ep } ep
            { macAddress := outMac, address := none, addressIPv6 := addrv6 }
    else
      let ep : BridgeEndpoint :=
        { id := eid, nid := nid, srcName := sboxName, addr := ei.address,
          addrv6 := ei.addressIPv6, macAddress := some mac, config := epConfig }
      .ok { s2 with endpoints := mapInsert s2.endpoints eid ep } ep
        { macAddress := outMac, address := none, addressIPv6 := none }

/-- Middle phase of the `CreateEndpoint` tail: MTU assignment, bridge
attachment, hairpin setup, then MAC election (a nil dereference of
`endpoint.addr` when the request carries neither a MAC nor an IPv4
address), continuing with `ceFinalize`. -/
def ceAfterResolve (proxyEnabled : Bool) (cfg : NetworkConfiguration)
    (s2 : CEState) (nid eid hostName sboxName : String) (ei : EndpointInterface)
    (epConfig : Option EndpointConfiguration) (env : CEEnv) : CEResult :=
  let undoAll : CEState → CEState := fun st =>
    { endpoints := mapErase st.endpoints eid,
      links := linkDel hostName (linkDel sboxName st.links) }
  if cfg.mtu ≠ 0 ∧ ¬ env.mtuHostOk then .fails .internal (undoAll s2)
  else if cfg.mtu ≠ 0 ∧ ¬ env.mtuSboxOk then .fails .internal (undoAll s2)
  else if ¬ env.attachOk then .fails .other (undoAll s2)
  else if ¬ proxyEnabled ∧ ¬ env.hairpinOk then .fails .other (undoAll s2)
  else
    match ei.macAddress with
    | some m => ceFinalize cfg s2 nid eid hostName sboxName ei epConfig env m none
    | none =>
      match ei.address with
      | none => .panics
      | some a =>
        let m := electMacAddress epConfig a.ip
        ceFinalize cfg s2 nid eid hostName sboxName ei epConfig env m (some m)

/-- `bridgeDriver.CreateEndpoint` from bridge.go, for a network already
looked up (its configuration is `cfg`; `proxyEnabled` is the driver-wide
`EnableUserlandProxy` flag), starting at the duplicate-endpoint check.
`epConfig` is the result of `parseEndpointOptions`.  The steps mirror the
source in order: endpoint-id check, duplicate check, placeholder insertion
(with deferred deletion on any later error), interface-name generation,
veth creation, host and sandbox link resolution (each with a deferred
best-effort link deletion registered only after that resolution succeeds,
so a failing host-side resolution leaves the created pair in place), then
the tail `ceAfterResolve`. -/
def createEndpointModel (proxyEnabled : Bool) (cfg : NetworkConfiguration)
    (s : CEState) (nid eid : String) (ei : EndpointInterface)
    (epConfig : Option EndpointConfiguration) (env : CEEnv) : CEResult :=
  if eid = "" then .fails .badRequest s
  else if (s.endpoints eid).isSome then .fails .forbidden s
  else
    let placeholder : BridgeEndpoint := { id := eid, nid := nid, config := epConfig }
    let s1 : CEState := { s with endpoints := mapInsert s.endpoints eid placeholder }
    let undoEp : CEState → CEState := fun st => { st with endpoints := mapErase st.endpoints eid }
    if ¬ env.genHostOk then .fails .other (undoEp s1)
    else if ¬ env.genSboxOk then .fails .other (undoEp s1)
    else if ¬ env.linkAddOk then .fails .internal (undoEp s1)
    else
      let s2 : CEState := { s1 with links := s1.links ++ [(env.hostName, env.sboxName)] }
      if ¬ env.findHostOk then .fails .internal (undoEp s2)
      else if ¬ env.findSboxOk then
        .fails .internal (undoEp { s2 with links := linkDel env.hostName s2.links })
      else
        ceAfterResolve proxyEnabled cfg s2 nid eid env.hostName env.sboxName ei epConfig env

/-- A network record held in the driver registry (`bridgeNetwork`): its id,
its configuration, whether its bridge device pre-existed, and the endpoint
records still attached (listed for teardown iteration). -/
structure NetRecord where
  id : String
  config : NetworkConfiguration
  bridgeExisted : Bool := false
  endpoints : List BridgeEndpoint := []

/-- The driver's network registry (`bridgeDriver.networks`). -/
abbrev NetMap := String → Option NetRecord

/-- `IPAMData` (convert.go) restricted to what the driver consults: the
pool, the gateway, and the two recognized aux-address keys
`DefaultGatewayIPv4` and `DefaultGatewayIPv6`. -/
structure IPAMData where
  addressSpace : String := ""
  pool : Option IPNet := none
  gateway : Option IPNet := none
  auxGatewayV4 : Option IPNet := none
  auxGatewayV6 : Option IPNet := none

/-- `networkConfiguration.processIPAM` from bridge.go: more than one subnet
per family is Forbidden, a missing IPv4 pool is BadRequest; the IPv4 pool
and recognized aux gateway are folded in, then the IPv6 pool (copied even
when nil) and its aux gateway when a v6 record is present. -/
def processIPAM (c : NetworkConfiguration) (ipamV4 ipamV6 : List IPAMData) :
    Except Err NetworkConfiguration :=
  if ipamV4.length > 1 ∨ ipamV6.length > 1 then .error .forbidden
  else
    match ipamV4 with
    | [] => .error .badRequest
    | d4 :: _ =>
      match d4.pool with
      | none => .error .badRequest
      | some p4 =>
        let c1 := { c with poolIPv4 := some p4 }
        let c2 :=
          match d4.auxGatewayV4 with
          | some gw => { c1 with defaultGatewayIPv4 := some gw.ip }
          | none => c1
        let c3 :=
          match ipamV6 with
          | [] => c2
          | d6 :: _ =>
            let c2a := { c2 with poolIPv6 := d6.pool }
            match d6.auxGatewayV6 with
            | some gw => { c2a with defaultGatewayIPv6 := some gw.ip }
            | none => c2a
        .ok c3

/-- The network-creation environment: the `LinkByName` probe for the bridge
name (`none` when no link of that name exists, `some b` when one exists
and `b` says whether it is a bridge), any other probe failure, the
`newInterface` outcome, whether the bridge interface already exists, and
the outcomes of the two queued setup steps. -/
structure CNEnv where
  probe : Option Bool := none
  probeLookupErr : Bool := false
  newInterfaceOk : Bool := true
  bridgeExists : Bool := false
  setupDeviceOk : Bool := true
  setupDeviceUpOk : Bool := true

/-- `bridgeInterfaceExists`: a failing lookup that is not "not found" is an
error, an existing non-bridge link is an error, otherwise report whether a
bridge of that name exists. -/
def bridgeInterfaceExistsModel (probe : Option Bool) (lookupErr : Bool) : Except Err Bool :=
  if lookupErr then .error .other
  else
    match probe with
    | none => .ok false
    | some true => .ok true
    | some false => .error .other

/-- Result of `parseNetworkOptions`: a Go panic, an error, or a finished
configuration. -/
inductive PNOResult where
  | panics
  | fails (e : Err)
  | ok (c : NetworkConfiguration)

/-- `parseNetworkOptions` from bridge.go: `genericOpts` is the result of
`parseNetworkGenericOptions` on the generic-data label (an error there is
returned unchanged), `enableIPv6Label` the well-known EnableIPv6 label;
the folded config is validated, the bridge name is defaulted to `br-`
plus the first twelve characters of the id when unset (a Go slice-bounds
panic when the id is shorter), the name is probed for an existing
interface (Forbidden when a bridge of that name exists), and the id is
recorded. -/
def parseNetworkOptionsModel (id : String) (genericOpts : Except Err NetworkConfiguration)
    (enableIPv6Label : Option Bool) (env : CNEnv) : PNOResult :=
  match genericOpts with
  | .error e => .fails e
  | .ok c0 =>
    let c1 :=
      match enableIPv6Label with
      | some b => { c0 with enableIPv6 := b }
      | none => c0
    match validateConfig c1 with
    | .error e => .fails e
    | .ok _ =>
      if c1.bridgeName = "" ∧ id.length < 12 then .panics
      else
        let c2 :=
          if c1.bridgeName = "" then { c1 with bridgeName := "br-" ++ id.take 12 } else c1
        match bridgeInterfaceExistsModel env.probe env.probeLookupErr with
        | .error e => .fails e
        | .ok true => .fails .forbidden
        | .ok false => .ok { c2 with id := id }

/-- The setup steps this driver defines (setup files of the l2bridge
package): device creation, device up, IPv6-autoconf disabling, the
local-forwarding filtering rule, and the firewalld reload hook. -/
inductive SetupStep where
  | device
  | deviceUp
  | disableIPv6
  | ipTables
  | firewalld
deriving DecidableEq, Repr

/-- Outcome of one setup step under the environment; the steps the driver
never queues are given a vacuous success. -/
def stepResult (env : CNEnv) : SetupStep → Option Err
  | .device => if env.setupDeviceOk then none else some .other
  | .deviceUp => if env.setupDeviceUpOk then none else some .other
  | _ => none

/-- Modelled from the spec: the `bridgeSetup` queue driven by
`newBridgeSetup`/`queueStep`/`apply`, whose source file is not under src
(§4.2 of the specification): the queued steps are applied strictly in the
order queued and the first error aborts the remaining steps and is
returned.  Returns the steps actually executed and the first error. -/
def applySteps (env : CNEnv) : List SetupStep → List SetupStep × Option Err
  | [] => ([], none)
  | s :: rest =>
    match stepResult env s with
    | some e => ([s], some e)
    | none =>
      let r := applySteps env rest
      (s :: r.1, r.2)

/-- The steps `createNetwork` actually queues (bridge.go): `setupDevice`
only when the bridge interface does not already exist, then
`setupDeviceUp`; nothing else (the iptables/firewalld steps are commented
out and `setupDisableIPv6` is never queued). -/
def queuedSteps (bridgeExists : Bool) : List SetupStep :=
  (if ¬ bridgeExists then [SetupStep.device] else []) ++ [SetupStep.deviceUp]

/-- The step list the specification claims for network creation: create
the device when absent, disable IPv6 autoconfiguration, install the
filtering rule when filtering is enabled, register the reload hook, bring
the device up.  Stated from the specification for comparison with
`queuedSteps`. -/
def specClaimedSteps (bridgeExists filteringEnabled : Bool) : List SetupStep :=
  (if ¬ bridgeExists then [SetupStep.device] else []) ++
  [SetupStep.disableIPv6] ++
  (if filteringEnabled then [SetupStep.ipTables] else []) ++
  [SetupStep.firewalld, SetupStep.deviceUp]

/-- `ipV4Data[0].Pool.String() == "0.0.0.0/0"`: the pool prints as the
unspecified default route exactly when its address narrows to `0.0.0.0`
via `To4` and its mask is canonical with zero leading ones. -/
def isDefaultRoutePool : Option IPNet → Bool
  | none => false
  | some p => to4 p.ip = some [0, 0, 0, 0] && simpleMaskLength p.mask = some 0

/-- Result of a `CreateNetwork` call: a Go panic, an error return carrying
the registry left behind, or success carrying the registry and the list of
setup steps that were executed. -/
inductive CNResult where
  | panics
  | fails (e : Err) (st : NetMap)
  | ok (st : NetMap) (applied : List SetupStep)

/-- The executed setup steps of a successful result. -/
def CNResult.appliedOf : CNResult → Option (List SetupStep)
  | .ok _ applied => some applied
  | _ => none

/-- `bridgeDriver.CreateNetwork` composed with `createNetwork` from
bridge.go: reject empty or default-route IPv4 data (BadRequest), reject a
duplicate id (Forbidden), parse and validate options, fold IPAM data,
construct the bridge wrapper (`newInterface`), insert the record into the
registry, then run the setup pipeline; on a pipeline error the record is
deleted again (the deferred compensating delete) and the error returned. -/
def createNetworkModel (st : NetMap) (id : String)
    (genericOpts : Except Err NetworkConfiguration) (enableIPv6Label : Option Bool)
    (ipamV4 ipamV6 : List IPAMData) (env : CNEnv) : CNResult :=
  match ipamV4 with
  | [] => .fails .badRequest st
  | d :: _ =>
    if isDefaultRoutePool d.pool then .fails .badRequest st
    else if (st id).isSome then .fails .forbidden st
    else
      match parseNetworkOptionsModel id genericOpts enableIPv6Label env with
      | .panics => .panics
      | .fails e => .fails e st
      | .ok cfg =>
        match processIPAM cfg ipamV4 ipamV6 with
        | .error e => .fails e st
        | .ok cfg2 =>
          if ¬ env.newInterfaceOk then .fails .other st
          else
            let st1 := mapInsert st cfg2.id
              { id := cfg2.id, config := cfg2, bridgeExisted := env.bridgeExists }
            let r := applySteps env (queuedSteps env.bridgeExists)
            match r.2 with
            | some e => .fails e (mapErase st1 cfg2.id)
            | none => .ok st1 r.1

/-- The network-deletion environment: per-link outcomes of the best-effort
`LinkByName`/`LinkDel` calls on endpoint veth links, and the outcome of the
bridge device link deletion. -/
structure DNEnv where
  epLinkFound : String → Bool := fun _ => true
  epLinkDelOk : String → Bool := fun _ => true
  bridgeLinkDelOk : Bool := true

/-- `bridgeDriver.DeleteNetwork`/`deleteNetwork` from bridge.go over the
registry and a flat list of host link names: an unknown id gives the
maskable-internal error; otherwise each attached endpoint's veth link is
deleted best-effort (a lookup or deletion failure is logged and the link
left behind), the entry is removed from the registry, and the bridge
device link is deleted best-effort (its error is captured by a shadowed
variable inside the if statement and never reaches the function's error
result), so the call succeeds whatever the cleanup outcomes. -/
def deleteNetworkModel (st : NetMap) (hostLinks : List String) (nid : String) (env : DNEnv) :
    Except Err (NetMap × List String) :=
  match st nid with
  | none => .error .internalMaskable
  | some n =>
    let links1 := n.endpoints.foldl
      (fun ls ep =>
        if env.epLinkFound ep.srcName && env.epLinkDelOk ep.srcName then
          ls.filter (· ≠ ep.srcName)
        else ls)
      hostLinks
    let links2 :=
      if env.bridgeLinkDelOk then links1.filter (· ≠ n.config.bridgeName) else links1
    .ok (mapErase st nid, links2)

/-- `bridgeDriver.getNetwork`: an empty id is BadRequest; a missing entry
is NotFound; a present record whose id mismatches the key is the
NotFound-class `InvalidNetworkIDError` (the sanity check). -/
def getNetworkModel (st : NetMap) (id : String) : Except Err NetRecord :=
  if id = "" then .error .badRequest
  else
    match st id with
    | none => .error .notFound
    | some n => if n.id = id then .ok n else .error .notFound

/-- `bridgeNetwork.getEndpoint`: an empty id is the BadRequest-class
`InvalidEndpointIDError`; otherwise the lookup result (possibly `none`) is
returned without error. -/
def getEndpointModel (endpoints : String → Option BridgeEndpoint) (eid : String) :
    Except Err (Option BridgeEndpoint) :=
  if eid = "" then .error .badRequest
  else .ok (endpoints eid)

/-- The lookup pattern every endpoint operation uses (`DeleteEndpoint`,
`EndpointInfo`, `Join`, `Leave`): `getEndpoint`, then the NotFound-class
`EndpointNotFoundError` when no endpoint was found. -/
def lookupEndpointModel (endpoints : String → Option BridgeEndpoint) (eid : String) :
    Except Err BridgeEndpoint :=
  match getEndpointModel endpoints eid with
  | .error e => .error e
  | .ok none => .error .notFound
  | .ok (some ep) => .ok ep

/-- The identifier-checking prefix shared by `CreateEndpoint` (for its
network lookup and empty-endpoint-id check), `DeleteEndpoint`,
`EndpointInfo` and `Join`: `getNetwork` with its error returned unchanged,
then the endpoint lookup on the found network's endpoint map.  `eps` is
the endpoint map of the network registered under `nid` (never consulted
when the network lookup fails). -/
def endpointOpLookup (st : NetMap) (eps : String → Option BridgeEndpoint)
    (nid eid : String) : Except Err BridgeEndpoint :=
  match getNetworkModel st nid with
  | .error e => .error e
  | .ok _ => lookupEndpointModel eps eid

/-- `bridgeDriver.Leave` from bridge.go: the `getNetwork` error — whatever
its class — is wrapped into `types.InternalMaskableErrorf`; the endpoint
lookup errors are returned unchanged (`getEndpoint` failure, or the
NotFound-class `EndpointNotFoundError` for a missing endpoint); otherwise
only sanity checks, no mutation.  `eps` is the endpoint map of the
network registered under `nid`. -/
def leaveModel (st : NetMap) (eps : String → Option BridgeEndpoint)
    (nid eid : String) : Except Err Unit :=
  match getNetworkModel st nid with
  | .error _ => .error .internalMaskable
  | .ok _ =>
    match getEndpointModel eps eid with
    | .error e => .error e
    | .ok none => .error .notFound
    | .ok (some _) => .ok ()

/-- A network record with one attached endpoint, used as sample data. -/
def sampleNetRecord : NetRecord :=
  { id := "n1", config := { bridgeName := "br0" }, endpoints := [{ srcName := "veth_s" }] }

/-- A registry holding `sampleNetRecord` under its own id. -/
def sampleNetMap : NetMap :=
  fun q => if q = "n1" then some sampleNetRecord else none

/-- A host state with no endpoints and no veth links. -/
def emptyCEState : CEState := ⟨fun _ => none, []⟩

/-- A host state already holding an endpoint record under id `e`. -/
def dupCEState : CEState :=
  ⟨fun k => if k = "e" then some { id := "e", nid := "n" } else none, []⟩

/-- The pool `2001:db8::/64`. -/
def pool64 : IPNet :=
  ⟨[32, 1, 13, 184, 0, 0, 0, 0, 0, 0, 0, 0, 0, 0, 0, 0],
   [255, 255, 255, 255, 255, 255, 255, 255, 0, 0, 0, 0, 0, 0, 0, 0]⟩

/-- The pool `2001:db8::/80`. -/
def pool80 : IPNet :=
  ⟨[32, 1, 13, 184, 0, 0, 0, 0, 0, 0, 0, 0, 0, 0, 0, 0],
   [255, 255, 255, 255, 255, 255, 255, 255, 255, 255, 0, 0, 0, 0, 0, 0]⟩

/-- The pool `2001:db8::/96`. -/
def pool96 : IPNet :=
  ⟨[32, 1, 13, 184, 0, 0, 0, 0, 0, 0, 0, 0, 0, 0, 0, 0],
   [255, 255, 255, 255, 255, 255, 255, 255, 255, 255, 255, 255, 0, 0, 0, 0]⟩

/-- The MAC address `02:42:ac:11:00:02`. -/
def macSample : Bytes := [2, 66, 172, 17, 0, 2]

/-
Theorems.  Each claim of the specification is settled below; helper lemmas
come first, then one theorem per claim with its witness or counterexample.
-/

/-- Looking up the erased key yields nothing. -/
theorem mapErase_self {α : Type} (m : String → Option α) (k : String) :
    mapErase m k k = none := by
  simp [mapErase]

/-- Looking up the inserted key yields the inserted value. -/
theorem mapInsert_self {α : Type} (m : String → Option α) (k : String) (v : α) :
    mapInsert m k v k = some v := by
  simp [mapInsert]

/-- Deleting a link whose name is fresh leaves the host links unchanged. -/
theorem linkDel_of_fresh {name : String} {links : Links} (h : FreshName name links) :
    linkDel name links = links := by
  unfold linkDel
  rw [List.filter_eq_self]
  intro p hp
  rcases h p hp with ⟨h1, h2⟩
  simp [h1, h2]

/-- Deleting both generated ends of a freshly created veth pair restores
the original host links. -/
theorem linkDel_pair {h s : String} {links : Links}
    (hh : FreshName h links) (hs : FreshName s links) :
    linkDel h (linkDel s (links ++ [(h, s)])) = links := by
  have hinner : linkDel s (links ++ [(h, s)]) = links := by
    unfold linkDel
    rw [List.filter_append]
    have hone : List.filter (fun p => decide (p.1 ≠ s) && decide (p.2 ≠ s)) [(h, s)] = [] := by
      simp
    rw [hone, List.append_nil, List.filter_eq_self]
    intro p hp
    rcases hs p hp with ⟨h1, h2⟩
    simp [h1, h2]
  rw [hinner, linkDel_of_fresh hh]

/-- Writing `src` into `l` starting at index `start` (all of it in range)
replaces exactly the bytes `start .. start + src.length - 1`. -/
theorem setBytesFrom_eq (src : Bytes) :
    ∀ (l : Bytes) (start : Nat), start + src.length ≤ l.length →
      setBytesFrom l start src = l.take start ++ src ++ l.drop (start + src.length) := by
  induction src with
  | nil =>
    intro l start _
    simp [setBytesFrom]
  | cons b t ih =>
    intro l start hle
    simp only [List.length_cons] at hle
    have hlt : start < l.length := by omega
    have hset : l.set start b = l.take start ++ b :: l.drop (start + 1) :=
      List.set_eq_take_cons_drop b hlt
    have hle2 : start + 1 + t.length ≤ (l.set start b).length := by
      rw [List.length_set]
      omega
    rw [setBytesFrom, ih (l.set start b) (start + 1) hle2, hset]
    have hlt' : (l.take start).length = start := by
      rw [List.length_take]
      omega
    have htk : (l.take start ++ b :: l.drop (start + 1)).take (start + 1)
        = l.take start ++ [b] := by
      rw [List.take_append_eq_append_take, hlt',
        List.take_of_length_le (by omega : (l.take start).length ≤ start + 1)]
      simp
    have hdr : (l.take start ++ b :: l.drop (start + 1)).drop (start + 1 + t.length)
        = l.drop (start + 1 + t.length) := by
      rw [List.drop_append_eq_append_drop, hlt',
        List.drop_eq_nil_of_le (by omega : (l.take start).length ≤ start + 1 + t.length)]
      have harith : start + 1 + t.length - start = t.length + 1 := by omega
      rw [harith]
      simp only [List.nil_append, List.drop_succ_cons, List.drop_drop]
    rw [htk, hdr]
    have harith3 : start + (b :: t).length = start + 1 + t.length := by
      simp only [List.length_cons]
      omega
    rw [harith3]
    simp [List.append_assoc]

/-- C5 counterexample: with a zero MTU, no IPv4 pool, and a configured IPv4
default gateway, `Validate` succeeds although the gateway is set and
contained in no pool, so the claimed equivalence fails on this input. -/
theorem c5_claim_false :
    validateConfig
        { mtu := 0, poolIPv4 := none, defaultGatewayIPv4 := some [10, 0, 0, 1] } = .ok ()
      ∧ specGatewayCondition
        { mtu := 0, poolIPv4 := none, defaultGatewayIPv4 := some [10, 0, 0, 1] } = false := by
  constructor <;> rfl

/-- C5 (amended): for every network configuration with non-negative MTU,
`Validate` succeeds iff the configured gateways pass the checks the code
makes: when both the IPv4 pool and the IPv4 gateway are set the pool
contains the gateway (an IPv4 gateway without a pool is accepted
unchecked), and when IPv6 is enabled and an IPv6 gateway is set the IPv6
pool is present and contains it. -/
theorem c5_validate_iff_gateways_contained (c : NetworkConfiguration) (h : 0 ≤ c.mtu) :
    validateConfig c = .ok () ↔ amendedGatewayCondition c = true := by
  have hmtu : ¬ c.mtu < 0 := not_lt.mpr h
  unfold validateConfig amendedGatewayCondition v4GatewayViolation v6GatewayViolation
  rw [if_neg hmtu]
  rcases hp4 : c.poolIPv4 with _ | p4 <;> rcases hg4 : c.defaultGatewayIPv4 with _ | g4 <;>
    rcases hp6 : c.poolIPv6 with _ | p6 <;> rcases hg6 : c.defaultGatewayIPv6 with _ | g6 <;>
    rcases h6 : c.enableIPv6 <;>
    simp [hp4, hg4, hp6, hg6, h6] <;>
    rcases hc4 : containsIP p4 g4 <;> simp [hc4] <;>
    rcases hc6 : containsIP p6 g6 <;> simp [hc6]

/-- C5 witness: a concrete configuration with pool `10.0.0.0/24` and gateway
`10.0.0.1` on which the amended equivalence is evaluated. -/
theorem c5_validate_iff_gateways_contained_witness :
    (0 : Int) ≤ (0 : Int)
      ∧ (validateConfig
            { mtu := 0,
              poolIPv4 := some ⟨[10, 0, 0, 0], [255, 255, 255, 0]⟩,
              defaultGatewayIPv4 := some [10, 0, 0, 1] } = .ok ()
         ↔ amendedGatewayCondition
            { mtu := 0,
              poolIPv4 := some ⟨[10, 0, 0, 0], [255, 255, 255, 0]⟩,
              defaultGatewayIPv4 := some [10, 0, 0, 1] } = true) :=
  ⟨le_refl 0,
   c5_validate_iff_gateways_contained
     { mtu := 0,
       poolIPv4 := some ⟨[10, 0, 0, 0], [255, 255, 255, 0]⟩,
       defaultGatewayIPv4 := some [10, 0, 0, 1] } (le_refl 0)⟩

/-- Deleting the host-side name of a freshly created veth pair removes the
pair and leaves the previously existing links unchanged. -/
theorem linkDel_pair_host {h s : String} {links : Links} (hh : FreshName h links) :
    linkDel h (links ++ [(h, s)]) = links := by
  unfold linkDel
  rw [List.filter_append]
  have hone : List.filter (fun p => decide (p.1 ≠ h) && decide (p.2 ≠ h)) [(h, s)] = [] := by
    simp
  rw [hone, List.append_nil, List.filter_eq_self]
  intro p hp
  rcases hh p hp with ⟨h1, h2⟩
  simp [h1, h2]

/-- Any error return of the final `CreateEndpoint` phase deletes the
endpoint record and runs both best-effort link deletions on the state the
phase was entered with. -/
theorem ceFinalize_fails (cfg : NetworkConfiguration) (s2 : CEState)
    (nid eid hostName sboxName : String) (ei : EndpointInterface)
    (epConfig : Option EndpointConfiguration) (env : CEEnv)
    (mac : Bytes) (outMac : Option Bytes) :
    ∀ e s3, ceFinalize cfg s2 nid eid hostName sboxName ei epConfig env mac outMac
        = .fails e s3 →
      s3.endpoints = mapErase s2.endpoints eid ∧
      s3.links = linkDel hostName (linkDel sboxName s2.links) := by
  intro e s3 heq
  unfold ceFinalize at heq
  by_cases hup : ¬ env.upOk
  · rw [if_pos hup] at heq
    cases heq
    exact ⟨rfl, rfl⟩
  · rw [if_neg hup] at heq
    by_cases hv6 : ei.addressIPv6 = none ∧ cfg.enableIPv6
    · rw [if_pos hv6] at heq
      rcases hpool : cfg.poolIPv6 with _ | pool
      · simp only [hpool] at heq
        cases heq
      · simp only [hpool] at heq
        by_cases h80 : maskOnes pool.mask > 80
        · rw [if_pos h80] at heq
          cases heq
          exact ⟨rfl, rfl⟩
        · rw [if_neg h80] at heq
          by_cases hlen : mac.length ≠ 0 ∧ pool.ip.length < 10 + mac.length
          · rw [if_pos hlen] at heq
            cases heq
          · rw [if_neg hlen] at heq
            cases heq
    · rw [if_neg hv6] at heq
      cases heq

/-- Any error return of the middle `CreateEndpoint` phase deletes the
endpoint record and runs both best-effort link deletions on the state the
phase was entered with. -/
theorem ceAfterResolve_fails (proxyEnabled : Bool) (cfg : NetworkConfiguration)
    (s2 : CEState) (nid eid hostName sboxName : String) (ei : EndpointInterface)
    (epConfig : Option EndpointConfiguration) (env : CEEnv) :
    ∀ e s3, ceAfterResolve proxyEnabled cfg s2 nid eid hostName sboxName ei epConfig env
        = .fails e s3 →
      s3.endpoints = mapErase s2.endpoints eid ∧
      s3.links = linkDel hostName (linkDel sboxName s2.links) := by
  intro e s3 heq
  unfold ceAfterResolve at heq
  by_cases hA : cfg.mtu ≠ 0 ∧ ¬ env.mtuHostOk
  · rw [if_pos hA] at heq
    cases heq
    exact ⟨rfl, rfl⟩
  · rw [if_neg hA] at heq
    by_cases hB : cfg.mtu ≠ 0 ∧ ¬ env.mtuSboxOk
    · rw [if_pos hB] at heq
      cases heq
      exact ⟨rfl, rfl⟩
    · rw [if_neg hB] at heq
      by_cases hC : ¬ env.attachOk
      · rw [if_pos hC] at heq
        cases heq
        exact ⟨rfl, rfl⟩
      · rw [if_neg hC] at heq
        by_cases hD : ¬ proxyEnabled ∧ ¬ env.hairpinOk
        · rw [if_pos hD] at heq
          cases heq
          exact ⟨rfl, rfl⟩
        · rw [if_neg hD] at heq
          rcases hm : ei.macAddress with _ | m
          · simp only [hm] at heq
            rcases ha : ei.address with _ | a
            · simp only [ha] at heq
              cases heq
            · simp only [ha] at heq
              exact ceFinalize_fails cfg s2 nid eid hostName sboxName ei epConfig env _ _ e s3 heq
          · simp only [hm] at heq
            exact ceFinalize_fails cfg s2 nid eid hostName sboxName ei epConfig env _ _ e s3 heq

/-- The derived MAC always has six bytes. -/
theorem generateMACFromIP_length (ip : Bytes) : (generateMACFromIP ip).length = 6 := by
  unfold generateMACFromIP
  rcases h : to4 ip with _ | x
  · simp
  · have hx : x.length = 4 := by
      unfold to4 at h
      by_cases h4 : ip.length = 4
      · rw [if_pos h4] at h
        cases h
        exact h4
      · rw [if_neg h4] at h
        by_cases hm : ip.length = 16 ∧ isZeros (ip.take 10) = true
            ∧ ip.getD 10 0 = 255 ∧ ip.getD 11 0 = 255
        · rw [if_pos hm] at h
          cases h
          simp [List.length_drop, hm.1]
        · rw [if_neg hm] at h
          cases h
    simp [hx]

/-- C1: for every `CreateEndpoint` call on an IPv6-enabled network whose
pool prefix length is at most 80 and whose request supplies no IPv6
address, the call succeeds and the endpoint's IPv6 address is the pool's
16-byte address with bytes 10 through 15 replaced by the six bytes of the
endpoint's MAC — the supplied MAC when the request carries one, the MAC
derived from the IPv4 address otherwise — carrying the pool's mask; the
same address is reported back. -/
theorem c1_ipv6_from_prefix_and_mac (proxyEnabled : Bool) (cfg : NetworkConfiguration)
    (s : CEState) (nid eid : String) (ei : EndpointInterface)
    (epConfig : Option EndpointConfiguration) (env : CEEnv) (pool : IPNet)
    (hne : eid ≠ "") (hfresh : s.endpoints eid = none) (henv : env.allOk)
    (hnov6 : ei.addressIPv6 = none) (hv6 : cfg.enableIPv6 = true)
    (hpool : cfg.poolIPv6 = some pool) (hiplen : pool.ip.length = 16)
    (hones : maskOnes pool.mask ≤ 80) :
    (∀ mac, ei.macAddress = some mac → mac.length = 6 →
      ∃ s2 ep out,
        createEndpointModel proxyEnabled cfg s nid eid ei epConfig env = .ok s2 ep out ∧
        ep.macAddress = some mac ∧
        ep.addrv6 = some ⟨pool.ip.take 10 ++ mac, pool.mask⟩ ∧
        out.addressIPv6 = some ⟨pool.ip.take 10 ++ mac, pool.mask⟩) ∧
    (∀ a, ei.macAddress = none → epConfigMac epConfig = none → ei.address = some a →
      ∃ s2 ep out,
        createEndpointModel proxyEnabled cfg s nid eid ei epConfig env = .ok s2 ep out ∧
        ep.macAddress = some (generateMACFromIP a.ip) ∧
        ep.addrv6 = some ⟨pool.ip.take 10 ++ generateMACFromIP a.ip, pool.mask⟩ ∧
        out.addressIPv6 = some ⟨pool.ip.take 10 ++ generateMACFromIP a.ip, pool.mask⟩) := by
  obtain ⟨h1, h2, h3, h4, h5, h6, h7, h8, h9, h10⟩ := henv
  have hno80 : ¬ maskOnes pool.mask > 80 := not_lt.mpr hones
  constructor
  · intro mac hmac hmlen
    have hip6 : setBytesFrom pool.ip 10 mac = pool.ip.take 10 ++ mac := by
      rw [setBytesFrom_eq mac pool.ip 10 (by omega),
        List.drop_eq_nil_of_le (by omega : pool.ip.length ≤ 10 + mac.length)]
      simp
    have hnolen : ¬ (mac.length ≠ 0 ∧ pool.ip.length < 10 + mac.length) := by
      rw [hmlen, hiplen]
      omega
    unfold createEndpointModel ceAfterResolve ceFinalize
    rw [if_neg hne]
    simp only [hfresh, Option.isSome_none, Bool.false_eq_true, if_false,
      h1, h2, h3, h4, h5, h6, h7, h8, h9, h10, hmac, hnov6, hv6, hpool,
      not_true, and_false, false_and, and_true, true_and, if_true, ite_false, ite_true,
      not_false_iff]
    simp only [hno80, hnolen, if_false, ite_false]
    exact ⟨_, _, _, rfl, rfl, by simp [hip6], by simp [hip6]⟩
  · intro a hmac hepc haddr
    have helect : electMacAddress epConfig a.ip = generateMACFromIP a.ip := by
      unfold electMacAddress
      cases epConfig with
      | none => rfl
      | some c =>
        simp only [epConfigMac] at hepc
        simp [hepc]
    have hmlen : (generateMACFromIP a.ip).length = 6 := generateMACFromIP_length a.ip
    have hip6 : setBytesFrom pool.ip 10 (generateMACFromIP a.ip)
        = pool.ip.take 10 ++ generateMACFromIP a.ip := by
      rw [setBytesFrom_eq (generateMACFromIP a.ip) pool.ip 10 (by omega),
        List.drop_eq_nil_of_le
          (by omega : pool.ip.length ≤ 10 + (generateMACFromIP a.ip).length)]
      simp
    have hnolen : ¬ ((generateMACFromIP a.ip).length ≠ 0
        ∧ pool.ip.length < 10 + (generateMACFromIP a.ip).length) := by
      rw [hmlen, hiplen]
      omega
    unfold createEndpointModel ceAfterResolve ceFinalize
    rw [if_neg hne]
    simp only [hfresh, Option.isSome_none, Bool.false_eq_true, if_false,
      h1, h2, h3, h4, h5, h6, h7, h8, h9, h10, hmac, haddr, hnov6, hv6, hpool, helect,
      not_true, and_false, false_and, and_true, true_and, if_true, ite_false, ite_true,
      not_false_iff]
    simp only [hno80, hnolen, if_false, ite_false]
    exact ⟨_, _, _, rfl, rfl, by simp [hip6], by simp [hip6]⟩

/-- C1 witness: network `2001:db8::/64`, MAC `02:42:ac:11:00:02`, no
explicit IPv6 address. -/
theorem c1_ipv6_from_prefix_and_mac_witness :
    CEEnv.allOk {} ∧ maskOnes pool64.mask ≤ 80 ∧
    ∃ s2 ep out,
      createEndpointModel false { enableIPv6 := true, poolIPv6 := some pool64 }
          emptyCEState "n" "e" { macAddress := some macSample } none {} = .ok s2 ep out ∧
      ep.macAddress = some macSample ∧
      ep.addrv6 = some ⟨pool64.ip.take 10 ++ macSample, pool64.mask⟩ ∧
      out.addressIPv6 = some ⟨pool64.ip.take 10 ++ macSample, pool64.mask⟩ :=
  ⟨⟨rfl, rfl, rfl, rfl, rfl, rfl, rfl, rfl, rfl, rfl⟩, by decide,
   (c1_ipv6_from_prefix_and_mac false { enableIPv6 := true, poolIPv6 := some pool64 }
     emptyCEState "n" "e" { macAddress := some macSample } none {} pool64
     (by decide) rfl ⟨rfl, rfl, rfl, rfl, rfl, rfl, rfl, rfl, rfl, rfl⟩
     rfl rfl rfl rfl (by decide)).1 macSample rfl rfl⟩

/-- C2 counterexample: when the host-side link resolution fails right after
the veth pair was created, the call returns an error and removes the
endpoint record, but the created veth pair is still present afterwards,
contradicting the claim that all created veth links are deleted on any
post-insertion failure. -/
theorem c2_claim_false :
    (createEndpointModel false {} ⟨fun _ => none, []⟩ "n" "e"
        { macAddress := some [2, 66, 172, 17, 0, 2] } none { findHostOk := false }).errClass
      = some Err.internal
    ∧ ((createEndpointModel false {} ⟨fun _ => none, []⟩ "n" "e"
        { macAddress := some [2, 66, 172, 17, 0, 2] } none { findHostOk := false }).stateOf.map
          fun st => st.links)
      = some [("veth_h", "veth_s")]
    ∧ ((createEndpointModel false {} ⟨fun _ => none, []⟩ "n" "e"
        { macAddress := some [2, 66, 172, 17, 0, 2] } none { findHostOk := false }).stateOf.map
          fun st => st.endpoints "e")
      = some none :=
  ⟨rfl, rfl, rfl⟩

/-- C2 (amended): on every error return of a `CreateEndpoint` call with a
fresh endpoint id, the endpoint record is absent from the endpoint map;
moreover the host's veth links are restored to their initial state, except
when the failing step is the host-side link resolution (reached when name
generation and veth creation succeeded but the host lookup fails), in
which case the created veth pair is left behind. -/
theorem c2_rollback_on_failure (proxyEnabled : Bool) (cfg : NetworkConfiguration)
    (s : CEState) (nid eid : String) (ei : EndpointInterface)
    (epConfig : Option EndpointConfiguration) (env : CEEnv)
    (hne : eid ≠ "") (hfresh : s.endpoints eid = none)
    (hfh : FreshName env.hostName s.links) (hfs : FreshName env.sboxName s.links) :
    ∀ e s2, createEndpointModel proxyEnabled cfg s nid eid ei epConfig env = .fails e s2 →
      s2.endpoints eid = none ∧
      ((env.genHostOk = true ∧ env.genSboxOk = true ∧ env.linkAddOk = true ∧
          env.findHostOk = false) →
        s2.links = s.links ++ [(env.hostName, env.sboxName)]) ∧
      (¬ (env.genHostOk = true ∧ env.genSboxOk = true ∧ env.linkAddOk = true ∧
          env.findHostOk = false) →
        s2.links = s.links) := by
  intro e s2 heq
  unfold createEndpointModel at heq
  rw [if_neg hne] at heq
  simp only [hfresh, Option.isSome_none, Bool.false_eq_true, if_false] at heq
  by_cases hg1 : env.genHostOk = true
  · rw [if_neg (not_not_intro hg1)] at heq
    by_cases hg2 : env.genSboxOk = true
    · rw [if_neg (not_not_intro hg2)] at heq
      by_cases hg3 : env.linkAddOk = true
      · rw [if_neg (not_not_intro hg3)] at heq
        by_cases hg4 : env.findHostOk = true
        · rw [if_neg (not_not_intro hg4)] at heq
          by_cases hg5 : env.findSboxOk = true
          · rw [if_neg (not_not_intro hg5)] at heq
            obtain ⟨hep, hlk⟩ := ceAfterResolve_fails proxyEnabled cfg _ nid eid
              env.hostName env.sboxName ei epConfig env e s2 heq
            refine ⟨by rw [hep]; exact mapErase_self _ _, ?_, ?_⟩
            · intro hpre
              exact absurd hg4 (by simp [hpre.2.2.2])
            · intro _
              rw [hlk]
              exact linkDel_pair hfh hfs
          · rw [if_pos (by simpa using hg5)] at heq
            cases heq
            refine ⟨mapErase_self _ _, ?_, ?_⟩
            · intro hpre
              exact absurd hg4 (by simp [hpre.2.2.2])
            · intro _
              exact linkDel_pair_host hfh
        · rw [if_pos (by simpa using hg4)] at heq
          cases heq
          refine ⟨mapErase_self _ _, ?_, ?_⟩
          · intro _
            rfl
          · intro hcon
            exact absurd ⟨hg1, hg2, hg3, by simpa using hg4⟩ hcon
      · rw [if_pos (by simpa using hg3)] at heq
        cases heq
        exact ⟨mapErase_self _ _, fun hpre => absurd hpre.2.2.1 hg3, fun _ => rfl⟩
    · rw [if_pos (by simpa using hg2)] at heq
      cases heq
      exact ⟨mapErase_self _ _, fun hpre => absurd hpre.2.1 hg2, fun _ => rfl⟩
  · rw [if_pos (by simpa using hg1)] at heq
    cases heq
    exact ⟨mapErase_self _ _, fun hpre => absurd hpre.1 hg1, fun _ => rfl⟩

/-- C2 witness: a failing MTU assignment rolls back the record and the
links. -/
theorem c2_rollback_on_failure_witness :
    emptyCEState.endpoints "e" = none ∧
    ∀ e s2,
      createEndpointModel false { mtu := 1500 } emptyCEState "n" "e"
          { macAddress := some macSample } none { mtuHostOk := false } = .fails e s2 →
        s2.endpoints "e" = none ∧
        ((CEEnv.genHostOk { mtuHostOk := false } = true ∧
            CEEnv.genSboxOk { mtuHostOk := false } = true ∧
            CEEnv.linkAddOk { mtuHostOk := false } = true ∧
            CEEnv.findHostOk { mtuHostOk := false } = false) →
          s2.links = emptyCEState.links ++
            [(CEEnv.hostName { mtuHostOk := false }, CEEnv.sboxName { mtuHostOk := false })]) ∧
        (¬ (CEEnv.genHostOk { mtuHostOk := false } = true ∧
            CEEnv.genSboxOk { mtuHostOk := false } = true ∧
            CEEnv.linkAddOk { mtuHostOk := false } = true ∧
            CEEnv.findHostOk { mtuHostOk := false } = false) →
          s2.links = emptyCEState.links) :=
  ⟨rfl,
   c2_rollback_on_failure false { mtu := 1500 } emptyCEState "n" "e"
     { macAddress := some macSample } none { mtuHostOk := false }
     (by decide) rfl (by intro p hp; cases hp) (by intro p hp; cases hp)⟩

/-- C4: for every `CreateEndpoint` call on an IPv6-enabled network with a
MAC supplied and no IPv6 address supplied and every other step succeeding,
the call fails with a Forbidden-class error exactly when the pool prefix
length exceeds 80; at 80 or below the call succeeds. -/
theorem c4_ipv6_prefix_boundary (proxyEnabled : Bool) (cfg : NetworkConfiguration)
    (s : CEState) (nid eid : String) (ei : EndpointInterface)
    (epConfig : Option EndpointConfiguration) (env : CEEnv) (mac : Bytes) (pool : IPNet)
    (hne : eid ≠ "") (hfresh : s.endpoints eid = none) (henv : env.allOk)
    (hmac : ei.macAddress = some mac) (hmlen : mac.length = 6)
    (hnov6 : ei.addressIPv6 = none) (hv6 : cfg.enableIPv6 = true)
    (hpool : cfg.poolIPv6 = some pool) (hiplen : pool.ip.length = 16) :
    ((createEndpointModel proxyEnabled cfg s nid eid ei epConfig env).errClass
        = some Err.forbidden ↔ maskOnes pool.mask > 80) ∧
    (maskOnes pool.mask ≤ 80 →
      ∃ s2 ep out,
        createEndpointModel proxyEnabled cfg s nid eid ei epConfig env = .ok s2 ep out) := by
  obtain ⟨h1, h2, h3, h4, h5, h6, h7, h8, h9, h10⟩ := henv
  have hnolen : ¬ (mac.length ≠ 0 ∧ pool.ip.length < 10 + mac.length) := by
    rw [hmlen, hiplen]
    omega
  unfold createEndpointModel ceAfterResolve ceFinalize
  rw [if_neg hne]
  simp only [hfresh, Option.isSome_none, Bool.false_eq_true, if_false,
    h1, h2, h3, h4, h5, h6, h7, h8, h9, h10, hmac, hnov6, hv6, hpool,
    not_true, and_false, false_and, and_true, true_and, if_true, ite_false, ite_true,
    not_false_iff]
  by_cases h80 : maskOnes pool.mask > 80
  · rw [if_pos h80]
    constructor
    · simp [CEResult.errClass, h80]
    · intro hle
      omega
  · rw [if_neg h80]
    simp only [hnolen, if_false, ite_false]
    constructor
    · simp [CEResult.errClass]
      omega
    · intro _
      exact ⟨_, _, _, rfl⟩

/-- C4 witness: the boundary evaluated at `/96` (rejected) and `/80`
(accepted). -/
theorem c4_ipv6_prefix_boundary_witness :
    ((createEndpointModel false { enableIPv6 := true, poolIPv6 := some pool96 }
          emptyCEState "n" "e" { macAddress := some macSample } none {}).errClass
        = some Err.forbidden ↔ maskOnes pool96.mask > 80) ∧
    (maskOnes pool80.mask ≤ 80 →
      ∃ s2 ep out,
        createEndpointModel false { enableIPv6 := true, poolIPv6 := some pool80 }
            emptyCEState "n" "e" { macAddress := some macSample } none {} = .ok s2 ep out) :=
  ⟨(c4_ipv6_prefix_boundary false { enableIPv6 := true, poolIPv6 := some pool96 }
      emptyCEState "n" "e" { macAddress := some macSample } none {} macSample pool96
      (by decide) rfl ⟨rfl, rfl, rfl, rfl, rfl, rfl, rfl, rfl, rfl, rfl⟩ rfl rfl rfl rfl rfl rfl).1,
   (c4_ipv6_prefix_boundary false { enableIPv6 := true, poolIPv6 := some pool80 }
      emptyCEState "n" "e" { macAddress := some macSample } none {} macSample pool80
      (by decide) rfl ⟨rfl, rfl, rfl, rfl, rfl, rfl, rfl, rfl, rfl, rfl⟩ rfl rfl rfl rfl rfl rfl).2⟩

/-- C8: a `CreateEndpoint` call whose endpoint id already exists in the
network's endpoint map fails with the Forbidden-class `ErrEndpointExists`
and leaves the state — in particular the existing endpoint record —
unchanged.  (The hypothesis that the map holds no empty-string key is an
invariant of every reachable state: an empty endpoint id is rejected
before any insertion.) -/
theorem c8_duplicate_endpoint_forbidden (proxyEnabled : Bool) (cfg : NetworkConfiguration)
    (s : CEState) (nid eid : String) (ei : EndpointInterface)
    (epConfig : Option EndpointConfiguration) (env : CEEnv) (ep0 : BridgeEndpoint)
    (hwf : s.endpoints "" = none) (hdup : s.endpoints eid = some ep0) :
    createEndpointModel proxyEnabled cfg s nid eid ei epConfig env = .fails .forbidden s := by
  have hne : eid ≠ "" := by
    intro h
    rw [h, hwf] at hdup
    cases hdup
  unfold createEndpointModel
  rw [if_neg hne]
  simp [hdup]

/-- C8 witness: creating endpoint `e` on a state already holding `e`. -/
theorem c8_duplicate_endpoint_forbidden_witness :
    dupCEState.endpoints "e" = some { id := "e", nid := "n" } ∧
    createEndpointModel false {} dupCEState "n" "e" {} none {} = .fails .forbidden dupCEState :=
  ⟨rfl,
   c8_duplicate_endpoint_forbidden false {} dupCEState "n" "e" {} none {}
     { id := "e", nid := "n" } rfl rfl⟩

/-- C9: when neither the endpoint options nor the interface request supply
a MAC address, `CreateEndpoint`'s MAC election dereferences the request's
IPv4 address: with a nil IPv4 address the call panics (nil pointer
dereference of `endpoint.addr`), and with an IPv4 address present the call
succeeds and both the stored and the reported MAC equal the deterministic
derivation from that IPv4 address. -/
theorem c9_mac_election (proxyEnabled : Bool) (cfg : NetworkConfiguration)
    (s : CEState) (nid eid : String) (ei : EndpointInterface)
    (epConfig : Option EndpointConfiguration) (env : CEEnv)
    (hne : eid ≠ "") (hfresh : s.endpoints eid = none) (henv : env.allOk)
    (hmac : ei.macAddress = none) (hepc : epConfigMac epConfig = none)
    (hv6off : cfg.enableIPv6 = false) :
    (ei.address = none →
      createEndpointModel proxyEnabled cfg s nid eid ei epConfig env = .panics) ∧
    (∀ a, ei.address = some a →
      ∃ s2 ep out,
        createEndpointModel proxyEnabled cfg s nid eid ei epConfig env = .ok s2 ep out ∧
        ep.macAddress = some (generateMACFromIP a.ip) ∧
        out.macAddress = some (generateMACFromIP a.ip)) := by
  obtain ⟨h1, h2, h3, h4, h5, h6, h7, h8, h9, h10⟩ := henv
  have helect : ∀ ip : Bytes, electMacAddress epConfig ip = generateMACFromIP ip := by
    intro ip
    unfold electMacAddress
    cases epConfig with
    | none => rfl
    | some c =>
      simp only [epConfigMac] at hepc
      simp [hepc]
  constructor
  · intro haddr
    unfold createEndpointModel ceAfterResolve
    rw [if_neg hne]
    simp only [hfresh, Option.isSome_none, Bool.false_eq_true, if_false,
      h1, h2, h3, h4, h5, h6, h7, h8, h9, h10, hmac, haddr,
      not_true, and_false, false_and, and_true, true_and, if_true, ite_false, ite_true,
      not_false_iff]
  · intro a haddr
    unfold createEndpointModel ceAfterResolve ceFinalize
    rw [if_neg hne]
    simp only [hfresh, Option.isSome_none, Bool.false_eq_true, if_false,
      h1, h2, h3, h4, h5, h6, h7, h8, h9, h10, hmac, haddr, hv6off,
      not_true, and_false, false_and, and_true, true_and, if_true, ite_false, ite_true,
      not_false_iff]
    exact ⟨_, _, _, rfl, by simp [helect], by simp [helect]⟩

/-- C9 witness: a request with no MAC anywhere and IPv4 address
`172.17.0.2/16` yields the MAC derived from that address. -/
theorem c9_mac_election_witness :
    epConfigMac none = none ∧
    ∃ s2 ep out,
      createEndpointModel false {} emptyCEState "n" "e"
          { address := some ⟨[172, 17, 0, 2], [255, 255, 0, 0]⟩ } none {} = .ok s2 ep out ∧
      ep.macAddress = some (generateMACFromIP [172, 17, 0, 2]) ∧
      out.macAddress = some (generateMACFromIP [172, 17, 0, 2]) :=
  ⟨rfl,
   (c9_mac_election false {} emptyCEState "n" "e"
       { address := some ⟨[172, 17, 0, 2], [255, 255, 0, 0]⟩ } none {}
       (by decide) rfl ⟨rfl, rfl, rfl, rfl, rfl, rfl, rfl, rfl, rfl, rfl⟩ rfl rfl rfl).2
     ⟨[172, 17, 0, 2], [255, 255, 0, 0]⟩ rfl⟩

/-- The finished configuration of `parseNetworkOptions` records the id. -/
theorem parseNetworkOptionsModel_id {id : String} {g : Except Err NetworkConfiguration}
    {l : Option Bool} {env : CNEnv} {c : NetworkConfiguration}
    (h : parseNetworkOptionsModel id g l env = .ok c) : c.id = id := by
  unfold parseNetworkOptionsModel at h
  rcases g with e | c0
  · cases h
  · rcases l with _ | b
    · rcases hval : validateConfig c0 with e | u
      · simp only [hval] at h
        cases h
      · simp only [hval] at h
        by_cases hbn : c0.bridgeName = "" ∧ id.length < 12
        · rw [if_pos hbn] at h
          cases h
        · rw [if_neg hbn] at h
          rcases hbe : bridgeInterfaceExistsModel env.probe env.probeLookupErr with e | tf
          · simp only [hbe] at h
            cases h
          · rcases tf
            · simp only [hbe] at h
              cases h
              rfl
            · simp only [hbe] at h
              cases h
    · rcases hval : validateConfig { c0 with enableIPv6 := b } with e | u
      · simp only [hval] at h
        cases h
      · simp only [hval] at h
        by_cases hbn : NetworkConfiguration.bridgeName { c0 with enableIPv6 := b } = ""
            ∧ id.length < 12
        · rw [if_pos hbn] at h
          cases h
        · rw [if_neg hbn] at h
          rcases hbe : bridgeInterfaceExistsModel env.probe env.probeLookupErr with e | tf
          · simp only [hbe] at h
            cases h
          · rcases tf
            · simp only [hbe] at h
              cases h
              rfl
            · simp only [hbe] at h
              cases h

/-- `processIPAM` never changes the id field. -/
theorem processIPAM_id {c : NetworkConfiguration} {v4 v6 : List IPAMData}
    {c2 : NetworkConfiguration} (h : processIPAM c v4 v6 = .ok c2) : c2.id = c.id := by
  unfold processIPAM at h
  repeat' split at h
  all_goals cases h
  all_goals rfl

/-- When no step fails, the whole queue is executed. -/
theorem applySteps_all {env : CNEnv} :
    ∀ steps : List SetupStep, (applySteps env steps).2 = none →
      (applySteps env steps).1 = steps := by
  intro steps
  induction steps with
  | nil => intro _; rfl
  | cons s rest ih =>
    intro h
    unfold applySteps at h ⊢
    rcases hr : stepResult env s with _ | e
    · simp only [hr] at h ⊢
      rw [ih h]
    · simp only [hr] at h
      cases h

/-- C3: for every `CreateNetwork` call on an id with no pre-existing
registry entry that returns an error — validation, duplicate id, option
parsing, IPAM folding, bridge-wrapper construction, or a setup-pipeline
failure after insertion — the registry holds no entry under that id when
the call returns. -/
theorem c3_create_network_error_no_entry (st : NetMap) (id : String)
    (genericOpts : Except Err NetworkConfiguration) (enableIPv6Label : Option Bool)
    (ipamV4 ipamV6 : List IPAMData) (env : CNEnv)
    (hpre : st id = none) :
    ∀ e st2, createNetworkModel st id genericOpts enableIPv6Label ipamV4 ipamV6 env
        = .fails e st2 → st2 id = none := by
  intro e st2 heq
  rcases ipamV4 with _ | ⟨d, rest⟩
  · simp only [createNetworkModel] at heq
    cases heq
    exact hpre
  · simp only [createNetworkModel] at heq
    by_cases hdef : isDefaultRoutePool d.pool = true
    · rw [if_pos hdef] at heq
      cases heq
      exact hpre
    · rw [if_neg hdef] at heq
      rw [hpre] at heq
      simp only [Option.isSome_none, Bool.false_eq_true, if_false] at heq
      rcases hp : parseNetworkOptionsModel id genericOpts enableIPv6Label env with _ | e1 | cfg
      · simp only [hp] at heq
        cases heq
      · simp only [hp] at heq
        cases heq
        exact hpre
      · simp only [hp] at heq
        rcases hpr : processIPAM cfg (d :: rest) ipamV6 with e2 | cfg2
        · simp only [hpr] at heq
          cases heq
          exact hpre
        · simp only [hpr] at heq
          by_cases hni : ¬ env.newInterfaceOk = true
          · rw [if_pos hni] at heq
            cases heq
            exact hpre
          · rw [if_neg hni] at heq
            rcases hap : (applySteps env (queuedSteps env.bridgeExists)).2 with _ | e3
            · simp only [hap] at heq
              cases heq
            · simp only [hap] at heq
              cases heq
              have hid : cfg2.id = id := by
                rw [processIPAM_id hpr, parseNetworkOptionsModel_id hp]
              rw [hid]
              exact mapErase_self _ _

/-- C3 witness: a `CreateNetwork` whose device-up setup step fails leaves
no registry entry under the requested id. -/
theorem c3_create_network_error_no_entry_witness :
    (fun _ => (none : Option NetRecord)) "abcdefgh1234" = none ∧
    ∀ e st2,
      createNetworkModel (fun _ => none) "abcdefgh1234" (.ok { bridgeName := "br0" }) none
          [{ pool := some ⟨[10, 0, 0, 0], [255, 255, 255, 0]⟩ }] []
          { setupDeviceUpOk := false }
        = .fails e st2 → st2 "abcdefgh1234" = none :=
  ⟨rfl,
   c3_create_network_error_no_entry (fun _ => none) "abcdefgh1234"
     (.ok { bridgeName := "br0" }) none
     [{ pool := some ⟨[10, 0, 0, 0], [255, 255, 255, 0]⟩ }] []
     { setupDeviceUpOk := false } rfl⟩

/-- Inversion of the success case of `createNetworkModel`. -/
theorem createNetworkModel_ok_inv (st : NetMap) (id : String)
    (genericOpts : Except Err NetworkConfiguration) (enableIPv6Label : Option Bool)
    (ipamV4 ipamV6 : List IPAMData) (env : CNEnv) :
    ∀ st2 applied, createNetworkModel st id genericOpts enableIPv6Label ipamV4 ipamV6 env
        = .ok st2 applied →
      applied = (applySteps env (queuedSteps env.bridgeExists)).1 ∧
      (applySteps env (queuedSteps env.bridgeExists)).2 = none := by
  intro st2 applied heq
  rcases ipamV4 with _ | ⟨d, rest⟩
  · simp only [createNetworkModel] at heq
    cases heq
  · simp only [createNetworkModel] at heq
    by_cases hdef : isDefaultRoutePool d.pool = true
    · rw [if_pos hdef] at heq
      cases heq
    · rw [if_neg hdef] at heq
      by_cases hdup : (st id).isSome = true
      · rw [if_pos hdup] at heq
        cases heq
      · rw [if_neg hdup] at heq
        rcases hp : parseNetworkOptionsModel id genericOpts enableIPv6Label env with _ | e1 | cfg
        · simp only [hp] at heq
          cases heq
        · simp only [hp] at heq
          cases heq
        · simp only [hp] at heq
          rcases hpr : processIPAM cfg (d :: rest) ipamV6 with e2 | cfg2
          · simp only [hpr] at heq
            cases heq
          · simp only [hpr] at heq
            by_cases hni : ¬ env.newInterfaceOk = true
            · rw [if_pos hni] at heq
              cases heq
            · rw [if_neg hni] at heq
              rcases hap : (applySteps env (queuedSteps env.bridgeExists)).2 with _ | e3
              · simp only [hap] at heq
                cases heq
                exact ⟨rfl, by first | exact hap | rfl⟩
              · simp only [hap] at heq
                cases heq

/-- C6 counterexample: a concrete successful `CreateNetwork` run (bridge
absent) executes exactly the device-creation and device-up steps; the
disable-IPv6 step the claim requires is not among them, and the claimed
step list differs from the executed one. -/
theorem c6_claim_false :
    (createNetworkModel (fun _ => none) "abcdefgh1234" (.ok { bridgeName := "br0" }) none
        [{ pool := some ⟨[10, 0, 0, 0], [255, 255, 255, 0]⟩ }] [] {}).appliedOf
      = some [SetupStep.device, SetupStep.deviceUp]
    ∧ SetupStep.disableIPv6 ∉ [SetupStep.device, SetupStep.deviceUp]
    ∧ specClaimedSteps false true ≠ [SetupStep.device, SetupStep.deviceUp] :=
  ⟨rfl, by decide, by decide⟩

/-- C6 (amended): every successful `CreateNetwork` applies, in order,
creating the bridge device (only when no device of that name already
exists) and bringing the device administratively up — nothing else: no
disable-IPv6, filtering-rule, or reload-hook step is queued by this
driver; and the first failing step aborts the remaining steps (a failing
device creation leaves device-up unexecuted and returns the error). -/
theorem c6_setup_pipeline (st : NetMap) (id : String)
    (genericOpts : Except Err NetworkConfiguration) (enableIPv6Label : Option Bool)
    (ipamV4 ipamV6 : List IPAMData) (env : CNEnv) :
    (∀ st2 applied, createNetworkModel st id genericOpts enableIPv6Label ipamV4 ipamV6 env
        = .ok st2 applied →
      applied = if env.bridgeExists then [SetupStep.deviceUp]
                else [SetupStep.device, SetupStep.deviceUp]) ∧
    (env.setupDeviceOk = false →
      applySteps env (queuedSteps false) = ([SetupStep.device], some Err.other)) := by
  constructor
  · intro st2 applied heq
    obtain ⟨h1, h2⟩ := createNetworkModel_ok_inv st id genericOpts enableIPv6Label
      ipamV4 ipamV6 env st2 applied heq
    rw [h1, applySteps_all _ h2]
    cases hbe : env.bridgeExists <;> simp [queuedSteps, hbe]
  · intro hdev
    simp [applySteps, queuedSteps, stepResult, hdev]

/-- C6 witness: with device creation failing, the pipeline executes only
that step and aborts. -/
theorem c6_setup_pipeline_witness :
    CNEnv.setupDeviceOk { setupDeviceOk := false } = false ∧
    applySteps { setupDeviceOk := false } (queuedSteps false)
      = ([SetupStep.device], some Err.other) :=
  ⟨rfl,
   (c6_setup_pipeline (fun _ => none) "x" (.ok {}) none [] [] { setupDeviceOk := false }).2 rfl⟩

/-- C7: every `DeleteNetwork` call on an id present in the registry
returns success with the id removed, for every outcome of the best-effort
cleanup steps (endpoint veth link deletion and bridge device link
deletion), whose failures are logged and swallowed. -/
theorem c7_delete_network_always_succeeds (st : NetMap) (hostLinks : List String)
    (nid : String) (n : NetRecord) (hn : st nid = some n) :
    ∀ env : DNEnv, ∃ links2,
      deleteNetworkModel st hostLinks nid env = .ok (mapErase st nid, links2) := by
  intro env
  unfold deleteNetworkModel
  simp only [hn]
  exact ⟨_, rfl⟩

/-- C7 witness: deleting a present network while every cleanup step
fails. -/
theorem c7_delete_network_always_succeeds_witness :
    sampleNetMap "n1" = some sampleNetRecord ∧
    ∃ links2,
      deleteNetworkModel sampleNetMap ["veth_s", "br0"] "n1"
          { epLinkDelOk := fun _ => false, bridgeLinkDelOk := false }
        = .ok (mapErase sampleNetMap "n1", links2) :=
  ⟨rfl,
   c7_delete_network_always_succeeds sampleNetMap ["veth_s", "br0"] "n1" sampleNetRecord rfl
     { epLinkDelOk := fun _ => false, bridgeLinkDelOk := false }⟩

/-- C10 counterexample: with an empty network id, `DeleteNetwork` returns
the Maskable/Internal classification (it never consults `getNetwork`), and
`Leave` wraps the lookup's BadRequest into the Maskable/Internal
classification — so an empty network id does not yield a BadRequest-class
error in every driver operation. -/
theorem c10_claim_false :
    deleteNetworkModel (fun _ => none) [] "" {} = .error .internalMaskable ∧
    leaveModel (fun _ => none) (fun _ => none) "" "e7" = .error .internalMaskable ∧
    Err.internalMaskable ≠ Err.badRequest :=
  ⟨rfl, rfl, by decide⟩

/-- C10 (amended): over well-formed registries (entries record their own
key), the operations that return lookup errors unchanged — `CreateEndpoint`
for its network lookup and empty-endpoint-id check, `DeleteEndpoint`,
`EndpointInfo`, `Join` — give BadRequest for an empty network id and for an
empty endpoint id, and produce NotFound exactly for a non-empty network id
absent from the registry or a non-empty endpoint id absent from the
endpoint map; two operations deviate: `Leave` wraps the network-lookup
error — the empty-id BadRequest included — into the Maskable/Internal
classification, and `DeleteNetwork` bypasses `getNetwork`, returning the
Maskable/Internal classification for any id absent from the registry, the
empty id included. -/
theorem c10_empty_id_classification (st : NetMap) (eps : String → Option BridgeEndpoint)
    (nid eid : String) (hostLinks : List String)
    (hwf : ∀ k n, st k = some n → n.id = k) :
    (nid = "" → endpointOpLookup st eps nid eid = .error .badRequest) ∧
    (eid = "" → (st nid).isSome = true → endpointOpLookup st eps nid eid = .error .badRequest) ∧
    (endpointOpLookup st eps nid eid = .error .notFound ↔
      (nid ≠ "" ∧ st nid = none) ∨
      (nid ≠ "" ∧ (st nid).isSome = true ∧ eid ≠ "" ∧ eps eid = none)) ∧
    (nid = "" → leaveModel st eps nid eid = .error .internalMaskable) ∧
    (∀ env : DNEnv, st nid = none →
      deleteNetworkModel st hostLinks nid env = .error .internalMaskable) := by
  refine ⟨?_, ?_, ?_, ?_, ?_⟩
  · intro h
    unfold endpointOpLookup getNetworkModel
    rw [if_pos h]
  · intro he hsome
    by_cases hnid : nid = ""
    · unfold endpointOpLookup getNetworkModel
      rw [if_pos hnid]
    · rcases hst : st nid with _ | n
      · rw [hst] at hsome
        cases hsome
      · unfold endpointOpLookup getNetworkModel
        rw [if_neg hnid]
        simp only [hst, hwf nid n hst, if_pos]
        simp [lookupEndpointModel, getEndpointModel, he]
  · constructor
    · intro h
      by_cases hnid : nid = ""
      · unfold endpointOpLookup getNetworkModel at h
        rw [if_pos hnid] at h
        cases h
      · rcases hst : st nid with _ | n
        · exact Or.inl ⟨hnid, rfl⟩
        · unfold endpointOpLookup getNetworkModel at h
          rw [if_neg hnid] at h
          simp only [hst, hwf nid n hst, if_pos] at h
          by_cases hid : eid = ""
          · simp [lookupEndpointModel, getEndpointModel, hid] at h
          · rcases hep : eps eid with _ | ep
            · exact Or.inr ⟨hnid, by simp [hst], hid, rfl⟩
            · unfold lookupEndpointModel getEndpointModel at h
              rw [if_neg hid] at h
              simp only [hep] at h
              cases h
    · intro hdisj
      rcases hdisj with ⟨hnid, hnone⟩ | ⟨hnid, hsome, hid, hnoep⟩
      · unfold endpointOpLookup getNetworkModel
        rw [if_neg hnid]
        simp only [hnone]
      · rcases hst : st nid with _ | n
        · rw [hst] at hsome
          cases hsome
        · unfold endpointOpLookup getNetworkModel
          rw [if_neg hnid]
          simp only [hst, hwf nid n hst, if_pos]
          simp [lookupEndpointModel, getEndpointModel, hid, hnoep]
  · intro h
    unfold leaveModel getNetworkModel
    rw [if_pos h]
  · intro env hnone
    unfold deleteNetworkModel
    simp only [hnone]

/-- C10 witness: a one-entry registry probed with an empty network id
(pass-through lookup, Leave, DeleteNetwork) and with an unknown non-empty
id. -/
theorem c10_empty_id_classification_witness :
    (∀ k n, sampleNetMap k = some n → NetRecord.id n = k) ∧
    endpointOpLookup sampleNetMap (fun _ => none) "" "e7" = .error .badRequest ∧
    leaveModel sampleNetMap (fun _ => none) "" "e7" = .error .internalMaskable ∧
    deleteNetworkModel sampleNetMap [] "nope" {} = .error .internalMaskable ∧
    (endpointOpLookup sampleNetMap (fun _ => none) "nope" "e7" = .error .notFound ↔
      ("nope" ≠ "" ∧ sampleNetMap "nope" = none) ∨
      ("nope" ≠ "" ∧ (sampleNetMap "nope").isSome = true ∧ "e7" ≠ ""
        ∧ (fun _ => (none : Option BridgeEndpoint)) "e7" = none)) := by
  have hwf : ∀ k n, sampleNetMap k = some n → NetRecord.id n = k := by
    intro k n h
    unfold sampleNetMap at h
    by_cases hk : k = "n1"
    · subst hk
      simp only [if_pos rfl] at h
      cases h
      rfl
    · simp only [if_neg hk] at h
      cases h
  have h1 := c10_empty_id_classification sampleNetMap (fun _ => none) "" "e7" [] hwf
  have h2 := c10_empty_id_classification sampleNetMap (fun _ => none) "nope" "e7" [] hwf
  exact ⟨hwf, h1.1 rfl, h1.2.2.2.1 rfl, h2.2.2.2.2 {} rfl, h2.2.2.1⟩

end L2Bridge
